import Mathlib

/-!
Shallow embedding of the Cross-Platform UI Automation Action Layer
(mcp-webdriverio): the accessibility-tree normalizer, the gesture
direction translator, the script-argument resolver and the per-action
dispatchers (tap, swipe, scroll, execute_script, get_accessibility),
together with theorems settling the specification claims.
-/

namespace Webdriverio

/-- A single content block of a tool result: the source always produces
blocks of the shape `\x7b type: 'text', text: ... \x7d`. -/
structure TextContent where
  type : String
  text : String
  deriving DecidableEq, Repr

/-- Value of a loosely typed attribute on a raw accessibility node
(JS `string | number | boolean`). -/
inductive AttrVal where
  | str (s : String)
  | num (q : ℚ)
  | bool (b : Bool)
  deriving DecidableEq, Repr

/-- Tri-state attribute domain for `checked` / `pressed`
(JS `true | false | 'mixed'`). -/
inductive TriState where
  | isTrue
  | isFalse
  | mixed
  deriving DecidableEq, Repr

/-- The attribute record of a raw accessibility node, as consumed by
`flattenAccessibilityTree` in `scroll.tool.ts`.  `none` models a JS
attribute that is absent (`undefined`). -/
structure AXData where
  role : Option String := none
  name : Option String := none
  value : Option AttrVal := none
  description : Option String := none
  disabled : Option Bool := none
  focused : Option Bool := none
  selected : Option Bool := none
  checked : Option TriState := none
  expanded : Option Bool := none
  pressed : Option TriState := none
  readonly : Option Bool := none
  required : Option Bool := none
  level : Option ℚ := none
  valuemin : Option ℚ := none
  valuemax : Option ℚ := none
  autocomplete : Option String := none
  haspopup : Option String := none
  invalid : Option Bool := none
  modal : Option Bool := none
  multiline : Option Bool := none
  multiselectable : Option Bool := none
  orientation : Option String := none
  keyshortcuts : Option String := none
  roledescription : Option String := none
  valuetext : Option String := none
  deriving DecidableEq, Repr

/-- A raw accessibility tree node: attribute record plus ordered children. -/
inductive AXNode where
  | node (data : AXData) (children : List AXNode)

/-- JS `x || ''` for an optional string (only `''` and `undefined` are falsy
among strings, and both produce `''`). -/
def strOrEmpty : Option String → String
  | some s => s
  | none => ""

/-- JS truthiness of an optional string (`undefined` and `''` are falsy). -/
def optStrTruthy : Option String → Bool
  | some s => s != ""
  | none => false

/-- JS truthiness of an optional boolean (`undefined` and `false` are falsy). -/
def boolTruthy : Option Bool → Bool
  | some b => b
  | none => false

/-- Serialization `node.x ? 'true' : ''` of a two-state boolean attribute. -/
def twoStateStr (o : Option Bool) : String :=
  if boolTruthy o then "true" else ""

/-- Serialization of `checked` / `pressed`:
`x === true ? 'true' : x === false ? 'false' : x === 'mixed' ? 'mixed' : ''`. -/
def triStateStr : Option TriState → String
  | some .isTrue => "true"
  | some .isFalse => "false"
  | some .mixed => "mixed"
  | none => ""

/-- Serialization of `expanded`:
`x === true ? 'true' : x === false ? 'false' : ''`. -/
def expandedStr : Option Bool → String
  | some true => "true"
  | some false => "false"
  | none => ""

/-- JS `x ?? ''` for an optional numeric attribute (`level`, `valuemin`,
`valuemax`): the number itself when present, the empty string otherwise. -/
def numOrEmpty : Option ℚ → AttrVal
  | some q => .num q
  | none => .str ""

/-- A flattened entry: one fixed field for every key of the object literal
built by `flattenAccessibilityTree`, in source order. -/
structure NormalizedAccessibilityEntry where
  role : String
  name : String
  value : AttrVal
  description : String
  disabled : String
  focused : String
  selected : String
  checked : String
  expanded : String
  pressed : String
  readonly : String
  required : String
  level : AttrVal
  valuemin : AttrVal
  valuemax : AttrVal
  autocomplete : String
  haspopup : String
  invalid : String
  modal : String
  multiline : String
  multiselectable : String
  orientation : String
  keyshortcuts : String
  roledescription : String
  valuetext : String
  deriving DecidableEq, Repr

/-- The object literal of `flattenAccessibilityTree`, field by field. -/
def mkEntry (d : AXData) : NormalizedAccessibilityEntry :=
  { role := strOrEmpty d.role
    name := strOrEmpty d.name
    value := d.value.getD (.str "")
    description := strOrEmpty d.description
    disabled := twoStateStr d.disabled
    focused := twoStateStr d.focused
    selected := twoStateStr d.selected
    checked := triStateStr d.checked
    expanded := expandedStr d.expanded
    pressed := triStateStr d.pressed
    readonly := twoStateStr d.readonly
    required := twoStateStr d.required
    level := numOrEmpty d.level
    valuemin := numOrEmpty d.valuemin
    valuemax := numOrEmpty d.valuemax
    autocomplete := strOrEmpty d.autocomplete
    haspopup := strOrEmpty d.haspopup
    invalid := twoStateStr d.invalid
    modal := twoStateStr d.modal
    multiline := twoStateStr d.multiline
    multiselectable := twoStateStr d.multiselectable
    orientation := strOrEmpty d.orientation
    keyshortcuts := strOrEmpty d.keyshortcuts
    roledescription := strOrEmpty d.roledescription
    valuetext := strOrEmpty d.valuetext }

/-- The guard `node.role !== 'WebArea' || node.name` deciding whether a node
gets its own entry. -/
def emitNode (d : AXData) : Bool :=
  d.role != some "WebArea" || optStrTruthy d.name

mutual

/-- Depth-first pre-order flattening of the accessibility tree
(`flattenAccessibilityTree` in `scroll.tool.ts`): emit the node's entry
unless it is an unnamed `WebArea`, then recurse over the children in order. -/
def flattenAccessibilityTree : AXNode → List NormalizedAccessibilityEntry
  | .node d cs =>
      (if emitNode d then [mkEntry d] else []) ++ flattenForest cs

/-- Flattening of a list of children, left to right (the `for...of` loop). -/
def flattenForest : List AXNode → List NormalizedAccessibilityEntry
  | [] => []
  | c :: cs => flattenAccessibilityTree c ++ flattenForest cs

end

/-- The `namedOnly` filter predicate: `n.name && n.name.trim() !== ''`. -/
def namedFilter (e : NormalizedAccessibilityEntry) : Bool :=
  e.name != "" && e.name.trim != ""

/-- The role filter predicate:
`n.role && roleSet.has(n.role.toLowerCase())`. -/
def roleFilter (roles : List String) (e : NormalizedAccessibilityEntry) : Bool :=
  e.role != "" && (roles.map String.toLower).contains e.role.toLower

/-- Flattening followed by the two optional filters of
`getAccessibilityTreeTool`, in source order: `namedOnly` first, then the
role filter (applied only when a non-empty role list is supplied). -/
def filteredNodes (snap : AXNode) (roles : Option (List String))
    (namedOnly : Bool) : List NormalizedAccessibilityEntry :=
  let nodes := flattenAccessibilityTree snap
  let nodes := if namedOnly then nodes.filter namedFilter else nodes
  match roles with
  | some rs => if rs.isEmpty then nodes else nodes.filter (roleFilter rs)
  | none => nodes

/-- The structured result assembled by `getAccessibilityTreeTool` before
encoding: totals, pagination window and the page of entries. -/
structure AccessResult where
  total : Nat
  showing : Nat
  hasMore : Bool
  nodes : List NormalizedAccessibilityEntry
  deriving DecidableEq, Repr

/-- The filter-count-paginate core of `getAccessibilityTreeTool`:
`total` before pagination, `slice(offset)` only when `offset > 0`,
`slice(0, limit)` only when `limit > 0`, and
`hasMore = offset + nodes.length < total`. -/
def getAccessibilityCore (snap : AXNode) (limit offset : Int)
    (roles : Option (List String)) (namedOnly : Bool) : AccessResult :=
  let nodes := filteredNodes snap roles namedOnly
  let total := nodes.length
  let nodes := if offset > 0 then nodes.drop offset.toNat else nodes
  let nodes := if limit > 0 then nodes.take limit.toNat else nodes
  { total := total
    showing := nodes.length
    hasMore := decide ((offset + nodes.length : Int) < (total : Int))
    nodes := nodes }

/-- The declared kind of the current session
(`browser` / `mobile-android` / `mobile-ios`). -/
inductive SessionKind where
  | browser
  | mobileAndroid
  | mobileIos
  deriving DecidableEq, Repr

/-- Direction vocabulary of the `scroll` tool input schema. -/
inductive ScrollDir where
  | up
  | down
  deriving DecidableEq, Repr

/-- Textual form of a scroll direction, used in the success message. -/
def ScrollDir.label : ScrollDir → String
  | .up => "up"
  | .down => "down"

/-- Observable outcome of a `scroll` invocation: the result content and
the signed delta handed to `browser.execute`, when that call was made. -/
structure ScrollOutcome where
  content : List TextContent
  executed : Option Int
  deriving DecidableEq, Repr

/-- The `scroll` tool (`scrollTool` in `scroll.tool.ts`).  `sessionType` is
`metadata?.type` for the current session; a non-browser kind raises an error
that the catch-all turns into an `Error scrolling:` text (the thrown
`Error` object stringifies with its own `Error:` prefix).  `execFault`
models a fault raised by the `browser.execute` call. -/
def scrollTool (sessionType : Option SessionKind) (direction : ScrollDir)
    (pixels : Int) (execFault : Option String) : ScrollOutcome :=
  if sessionType != some .browser then
    { content := [⟨"text", "Error scrolling: Error: scroll only works in browser sessions. For mobile, use the swipe tool."⟩]
      executed := none }
  else
    let scrollAmount := if direction == .down then pixels else -pixels
    match execFault with
    | some f =>
        { content := [⟨"text", "Error scrolling: " ++ f⟩]
          executed := some scrollAmount }
    | none =>
        { content := [⟨"text", "Scrolled " ++ direction.label ++ " " ++ toString pixels ++ " pixels"⟩]
          executed := some scrollAmount }

/-- The `tap_element` tool (`tapElementTool`): a truthy selector wins, then
the coordinate pair, otherwise the missing-argument error text.
`backendFault` models a fault raised by the backend tap call. -/
def tapElementTool (selector : Option String) (x y : Option Int)
    (backendFault : Option String) : List TextContent :=
  if optStrTruthy selector then
    match backendFault with
    | some f => [⟨"text", "Error tapping: " ++ f⟩]
    | none => [⟨"text", "Tapped element: " ++ strOrEmpty selector⟩]
  else if x.isSome && y.isSome then
    match backendFault with
    | some f => [⟨"text", "Error tapping: " ++ f⟩]
    | none =>
        [⟨"text", "Tapped at coordinates: (" ++ toString (x.getD 0) ++ ", " ++ toString (y.getD 0) ++ ")"⟩]
  else
    [⟨"text", "Error: Must provide either selector or x,y coordinates"⟩]

/-- Direction vocabulary of the `swipe` tool input schema. -/
inductive Direction where
  | up
  | down
  | left
  | right
  deriving DecidableEq, Repr

/-- Textual form of a swipe direction, used in the success message. -/
def Direction.label : Direction → String
  | .up => "up"
  | .down => "down"
  | .left => "left"
  | .right => "right"

/-- The fixed content-to-finger inversion table of the `swipe` tool. -/
def contentToFingerDirection : Direction → Direction
  | .up => .down
  | .down => .up
  | .left => .right
  | .right => .left

/-- The argument record handed to `browser.swipe`. -/
structure SwipeCall where
  direction : Direction
  duration : ℚ
  percent : ℚ
  deriving DecidableEq, Repr

/-- Default resolution and direction inversion of `swipeTool`:
`percent ?? (isVertical ? 0.5 : 0.95)`, `duration ?? 500`, and the finger
direction from the inversion table. -/
def swipeCall (direction : Direction) (duration percent : Option ℚ) : SwipeCall :=
  let isVertical := direction == .up || direction == .down
  let defaultPercent : ℚ := if isVertical then 0.5 else 0.95
  { direction := contentToFingerDirection direction
    duration := duration.getD 500
    percent := percent.getD defaultPercent }

/-- Observable outcome of a `swipe` invocation: the result content and the
argument record passed to `browser.swipe`. -/
structure SwipeOutcome where
  content : List TextContent
  call : SwipeCall
  deriving DecidableEq, Repr

/-- The `swipe` tool (`swipeTool`): resolve defaults, invert the direction,
issue the backend swipe; a backend fault is caught into an
`Error swiping:` text. -/
def swipeTool (direction : Direction) (duration percent : Option ℚ)
    (backendFault : Option String) : SwipeOutcome :=
  { call := swipeCall direction duration percent
    content :=
      match backendFault with
      | some f => [⟨"text", "Error swiping: " ++ f⟩]
      | none => [⟨"text", "Swiped " ++ direction.label⟩] }

/-- A script argument: a string, a live element handle (the result of a
successful selector resolution), or an opaque non-string JSON value. -/
inductive JSArg where
  | str (s : String)
  | elemHandle (selector : String)
  | other (tag : Nat)
  deriving DecidableEq, Repr

/-- JS `s.startsWith(p)`: character-level prefix test. -/
def strStartsWith (s p : String) : Bool :=
  p.data.isPrefixOf s.data

/-- Per-argument resolution of `executeScriptTool`: a string argument of a
non-mobile script is looked up as a selector (`oracle s = some b` models
`browser.$(s)` succeeding with `isExisting() = b`; `none` models a thrown
lookup); only an existing element replaces the string, every other case
passes the argument through unchanged. -/
def resolveArg (script : String) (oracle : String → Option Bool) :
    JSArg → JSArg
  | .str s =>
      if !(strStartsWith script "mobile:") then
        match oracle s with
        | some true => .elemHandle s
        | _ => .str s
      else .str s
  | a => a

/-- Index-preserving resolution of the whole argument list
(the `Promise.all(scriptArgs.map(...))` of `executeScriptTool`). -/
def resolveArgs (script : String) (oracle : String → Option Bool)
    (args : List JSArg) : List JSArg :=
  args.map (resolveArg script oracle)

/-- Observable outcome of an `execute_script` invocation: the result
content and the resolved argument list passed to `browser.execute`. -/
structure ScriptOutcome where
  content : List TextContent
  dispatched : List JSArg
  deriving DecidableEq, Repr

/-- The `execute_script` tool (`executeScriptTool`): resolve the arguments,
dispatch, and format.  `successText` stands for the formatted text of a
successful run (result formatting is outside the claims); a backend fault
is caught into an `Error executing script:` text. -/
def executeScriptTool (script : String) (args : List JSArg)
    (oracle : String → Option Bool) (backendFault : Option String)
    (successText : String) : ScriptOutcome :=
  let resolved := resolveArgs script oracle args
  { dispatched := resolved
    content :=
      match backendFault with
      | some f => [⟨"text", "Error executing script: " ++ f⟩]
      | none => [⟨"text", successText⟩] }

/-- The `get_accessibility` tool (`getAccessibilityTreeTool`): mobile
sessions are rejected up front; a backend fault is caught into an
`Error getting accessibility tree:` text; no pages or no snapshot yield
descriptive non-error messages; otherwise the core result is computed and
serialized by the external encoder `enc` (the toon encoding plus the
empty-string stripping, outside the claims). -/
def getAccessibilityTreeTool (isMobile : Bool) (pagesEmpty : Bool)
    (snapshot : Option AXNode) (backendFault : Option String)
    (enc : AccessResult → String) (limit offset : Int)
    (roles : Option (List String)) (namedOnly : Bool) : List TextContent :=
  if isMobile then
    [⟨"text", "Error: get_accessibility is browser-only. For mobile apps, use get_visible_elements instead."⟩]
  else
    match backendFault with
    | some f => [⟨"text", "Error getting accessibility tree: " ++ f⟩]
    | none =>
        if pagesEmpty then
          [⟨"text", "No active pages found"⟩]
        else
          match snapshot with
          | none => [⟨"text", "No accessibility tree available"⟩]
          | some snap =>
              [⟨"text", enc (getAccessibilityCore snap limit offset roles namedOnly)⟩]

/-- The `drag_and_drop` tool (`dragAndDropTool` in `part_000`): the source
element is looked up before the target validation, so a fault of
`browser.$(sourceSelector)` (modelled by `sourceFault`) wins even when the
target arguments are missing; then a truthy target selector, then the
coordinate pair, otherwise the missing-argument error.  `dragFault` models
a fault of the `dragAndDrop` backend call. -/
def dragAndDropTool (sourceSelector : String) (targetSelector : Option String)
    (x y : Option Int) (duration : Option ℚ)
    (sourceFault dragFault : Option String) : List TextContent :=
  match sourceFault with
  | some f => [⟨"text", "Error dragging: " ++ f⟩]
  | none =>
      if optStrTruthy targetSelector then
        match dragFault with
        | some f => [⟨"text", "Error dragging: " ++ f⟩]
        | none =>
            [⟨"text", "Dragged " ++ sourceSelector ++ " to " ++ strOrEmpty targetSelector⟩]
      else if x.isSome && y.isSome then
        match dragFault with
        | some f => [⟨"text", "Error dragging: " ++ f⟩]
        | none =>
            [⟨"text", "Dragged " ++ sourceSelector ++ " by (" ++ toString (x.getD 0) ++ ", " ++ toString (y.getD 0) ++ ")"⟩]
      else
        [⟨"text", "Error: Must provide either targetSelector or x,y coordinates"⟩]

/-- Orientation vocabulary of the `rotate_device` input schema. -/
inductive Orientation where
  | portrait
  | landscape
  deriving DecidableEq, Repr

/-- Textual form of an orientation, used in the success message. -/
def Orientation.label : Orientation → String
  | .portrait => "PORTRAIT"
  | .landscape => "LANDSCAPE"

/-- The `rotate_device` tool (`rotateDeviceTool`): forwards the
orientation to `browser.setOrientation`; a backend fault is caught into an
`Error rotating device:` text. -/
def rotateDeviceTool (orientation : Orientation)
    (backendFault : Option String) : List TextContent :=
  match backendFault with
  | some f => [⟨"text", "Error rotating device: " ++ f⟩]
  | none => [⟨"text", "Device rotated to: " ++ orientation.label⟩]

/-- The `hide_keyboard` tool (`hideKeyboardTool`): calls
`browser.hideKeyboard`; a backend fault is caught into an
`Error hiding keyboard:` text. -/
def hideKeyboardTool (backendFault : Option String) : List TextContent :=
  match backendFault with
  | some f => [⟨"text", "Error hiding keyboard: " ++ f⟩]
  | none => [⟨"text", "Keyboard hidden"⟩]

/-- A geolocation triple as returned by `browser.getGeoLocation`. -/
structure GeoLocation where
  latitude : ℚ
  longitude : ℚ
  altitude : Option ℚ
  deriving DecidableEq, Repr

/-- JS truthiness of an optional number (`undefined` and `0` are falsy). -/
def numTruthy : Option ℚ → Bool
  | some q => q != 0
  | none => false

/-- The `get_geolocation` tool (`getGeolocationTool`): formats the
location returned by the backend (`location.altitude || 'N/A'` renders a
missing or zero altitude as `N/A`); a backend fault is caught into an
`Error getting geolocation:` text. -/
def getGeolocationTool (result : GeoLocation)
    (backendFault : Option String) : List TextContent :=
  match backendFault with
  | some f => [⟨"text", "Error getting geolocation: " ++ f⟩]
  | none =>
      [⟨"text", "Location:\n  Latitude: " ++ toString result.latitude ++
        "\n  Longitude: " ++ toString result.longitude ++
        "\n  Altitude: " ++
        (if numTruthy result.altitude then toString (result.altitude.getD 0)
         else "N/A")⟩]

/-- The `set_geolocation` tool (`setGeolocationTool`): confirms the set
coordinates, appending the altitude line only for a truthy altitude; a
backend fault is caught into an `Error setting geolocation:` text. -/
def setGeolocationTool (latitude longitude : ℚ) (altitude : Option ℚ)
    (backendFault : Option String) : List TextContent :=
  match backendFault with
  | some f => [⟨"text", "Error setting geolocation: " ++ f⟩]
  | none =>
      [⟨"text", "Geolocation set to:\n  Latitude: " ++ toString latitude ++
        "\n  Longitude: " ++ toString longitude ++
        (if numTruthy altitude then
          "\n  Altitude: " ++ toString (altitude.getD 0) ++ "m"
         else "")⟩]

/-- A result that is a single text block whose text begins with `Error`. -/
def isSingleErrorBlock (r : List TextContent) : Prop :=
  ∃ rest, r = [⟨"text", "Error" ++ rest⟩]

/-- A fixed error prefix followed by a fault description begins with
`Error` whenever the prefix itself does. -/
theorem errorPrefixSplit (pre mid f : String)
    (h : "Error" ++ mid = pre) : pre ++ f = "Error" ++ (mid ++ f) := by
  rw [← String.append_assoc, h]

/-- A single block whose text is a fixed `Error` prefix followed by a
fault description is a single error block. -/
theorem singleErrorBlockAppend (pre mid f : String)
    (h : "Error" ++ mid = pre) :
    isSingleErrorBlock [⟨"text", pre ++ f⟩] :=
  ⟨mid ++ f, by rw [errorPrefixSplit pre mid f h]⟩

/-- C5: the content-to-finger direction mapping is total on the four
directions, maps up to down, down to up, left to right, right to left,
and is an involution. -/
theorem c5_direction_involution :
    (∀ d : Direction,
      contentToFingerDirection (contentToFingerDirection d) = d) ∧
    contentToFingerDirection .up = .down ∧
    contentToFingerDirection .down = .up ∧
    contentToFingerDirection .left = .right ∧
    contentToFingerDirection .right = .left := by
  refine ⟨fun d => ?_, rfl, rfl, rfl, rfl⟩
  cases d <;> rfl

/-- C6: with no explicit percent the swipe backend call uses percent 0.5
for vertical directions and 0.95 for horizontal ones; with no explicit
duration it uses 500 ms; explicit values pass through unchanged. -/
theorem c6_swipe_defaults (direction : Direction)
    (duration percent : Option ℚ) (fault : Option String) :
    ((swipeTool direction duration none fault).call.percent =
      if direction = .up ∨ direction = .down then (0.5 : ℚ) else 0.95) ∧
    ((swipeTool direction none percent fault).call.duration = 500) ∧
    (∀ q : ℚ, (swipeTool direction duration (some q) fault).call.percent = q) ∧
    (∀ q : ℚ, (swipeTool direction (some q) percent fault).call.duration = q) := by
  refine ⟨?_, ?_, fun q => ?_, fun q => ?_⟩ <;>
    cases direction <;> simp [swipeTool, swipeCall]

/-- C7: when the script text starts with the mobile-command prefix, the
resolved argument list equals the raw list element by element, whatever
the selector-resolution oracle would answer, and the list dispatched to
the backend is the raw list. -/
theorem c7_mobile_passthrough (script : String) (args : List JSArg)
    (oracle : String → Option Bool) (fault : Option String)
    (successText : String) (h : strStartsWith script "mobile:" = true) :
    resolveArgs script oracle args = args ∧
    (executeScriptTool script args oracle fault successText).dispatched = args := by
  have hres : resolveArgs script oracle args = args := by
    unfold resolveArgs
    induction args with
    | nil => rfl
    | cons a as ih =>
        simp only [List.map_cons, ih, List.cons.injEq, and_true]
        cases a <;> simp [resolveArg, h]
  exact ⟨hres, by simp [executeScriptTool, hres]⟩

/-- C7 witness: a concrete mobile command with an object argument and a
resolvable-selector string argument passes both through unchanged. -/
theorem c7_witness :
    (strStartsWith "mobile: pressKey" "mobile:" = true) ∧
    (resolveArgs "mobile: pressKey" (fun _ => some true)
        [JSArg.other 4, JSArg.str "#button"] =
      [JSArg.other 4, JSArg.str "#button"] ∧
    (executeScriptTool "mobile: pressKey"
        [JSArg.other 4, JSArg.str "#button"] (fun _ => some true) none
        "Result: 0").dispatched = [JSArg.other 4, JSArg.str "#button"]) :=
  ⟨by decide, c7_mobile_passthrough "mobile: pressKey"
    [JSArg.other 4, JSArg.str "#button"] (fun _ => some true) none
    "Result: 0" (by decide)⟩

/-- C1 (amended): `checked` and `pressed` serialize to one of `true`,
`false`, `mixed`, the empty string; `expanded` serializes to `true`,
`false` or the empty string; the remaining two-state booleans serialize
to `true` or the empty string and never to the literal `false`. -/
theorem c1_boolean_serialization (d : AXData) :
    ((mkEntry d).checked = "true" ∨ (mkEntry d).checked = "false" ∨
      (mkEntry d).checked = "mixed" ∨ (mkEntry d).checked = "") ∧
    ((mkEntry d).pressed = "true" ∨ (mkEntry d).pressed = "false" ∨
      (mkEntry d).pressed = "mixed" ∨ (mkEntry d).pressed = "") ∧
    ((mkEntry d).expanded = "true" ∨ (mkEntry d).expanded = "false" ∨
      (mkEntry d).expanded = "") ∧
    ((mkEntry d).disabled = "true" ∨ (mkEntry d).disabled = "") ∧
    ((mkEntry d).focused = "true" ∨ (mkEntry d).focused = "") ∧
    ((mkEntry d).selected = "true" ∨ (mkEntry d).selected = "") ∧
    ((mkEntry d).readonly = "true" ∨ (mkEntry d).readonly = "") ∧
    ((mkEntry d).required = "true" ∨ (mkEntry d).required = "") ∧
    ((mkEntry d).invalid = "true" ∨ (mkEntry d).invalid = "") ∧
    ((mkEntry d).modal = "true" ∨ (mkEntry d).modal = "") ∧
    ((mkEntry d).multiline = "true" ∨ (mkEntry d).multiline = "") ∧
    ((mkEntry d).multiselectable = "true" ∨ (mkEntry d).multiselectable = "") := by
  refine ⟨?_, ?_, ?_, ?_, ?_, ?_, ?_, ?_, ?_, ?_, ?_, ?_⟩
  · rcases h : d.checked with _ | t
    · simp [mkEntry, triStateStr, h]
    · cases t <;> simp [mkEntry, triStateStr, h]
  · rcases h : d.pressed with _ | t
    · simp [mkEntry, triStateStr, h]
    · cases t <;> simp [mkEntry, triStateStr, h]
  · rcases h : d.expanded with _ | b
    · simp [mkEntry, expandedStr, h]
    · cases b <;> simp [mkEntry, expandedStr, h]
  all_goals
    simp only [mkEntry, twoStateStr]
    split <;> simp

/-- The node used to refute the literal reading of C1: a named button
whose raw `expanded` attribute is `false`. -/
def c1Data : AXData :=
  { role := some "button", name := some "Menu", expanded := some false }

/-- C1 counterexample: flattening a named button with `expanded: false`
emits an entry whose `expanded` field is the literal string `false`,
which is neither `true` nor the empty string. -/
theorem c1_counterexample :
    flattenAccessibilityTree (.node c1Data []) = [mkEntry c1Data] ∧
    (mkEntry c1Data).expanded = "false" ∧
    ¬((mkEntry c1Data).expanded = "true" ∨ (mkEntry c1Data).expanded = "") := by
  refine ⟨rfl, rfl, ?_⟩
  decide

/-- An entry that the flattening emits never comes from an unnamed
`WebArea` node: the emission guard rules that combination out. -/
theorem emitted_entry_not_unnamed_webarea (d : AXData)
    (he : emitNode d = true) :
    ¬((mkEntry d).role = "WebArea" ∧ (mkEntry d).name = "") := by
  rintro ⟨hrole, hname⟩
  have h1 : d.role = some "WebArea" := by
    cases hr : d.role <;> simp_all [mkEntry, strOrEmpty]
  have h2 : optStrTruthy d.name = false := by
    cases hn : d.name <;> simp_all [mkEntry, optStrTruthy, strOrEmpty]
  simp [emitNode, h1, h2] at he

mutual

/-- No entry of a flattened tree pairs the role `WebArea` with an empty
name, at any depth. -/
theorem no_unnamed_webarea_in_tree : ∀ (t : AXNode),
    ∀ e ∈ flattenAccessibilityTree t,
    ¬(e.role = "WebArea" ∧ e.name = "")
  | .node d cs => by
      intro e he
      simp only [flattenAccessibilityTree] at he
      rcases List.mem_append.1 he with h | h
      · rcases hg : emitNode d with _ | _
        · simp [hg] at h
        · simp [hg] at h
          exact h ▸ emitted_entry_not_unnamed_webarea d hg
      · exact no_unnamed_webarea_in_forest cs e h

/-- No entry of a flattened child list pairs the role `WebArea` with an
empty name. -/
theorem no_unnamed_webarea_in_forest : ∀ (l : List AXNode),
    ∀ e ∈ flattenForest l,
    ¬(e.role = "WebArea" ∧ e.name = "")
  | [] => by intro e he; simp [flattenForest] at he
  | c :: cs => by
      intro e he
      simp only [flattenForest] at he
      rcases List.mem_append.1 he with h | h
      · exact no_unnamed_webarea_in_tree c e h
      · exact no_unnamed_webarea_in_forest cs e h

end

/-- C9: an unnamed `WebArea` node contributes no entry of its own while
its children are still flattened in order; a named `WebArea` node is
emitted normally; children are always processed left to right; and no
emitted entry anywhere in the tree is an unnamed `WebArea`. -/
theorem c9_webarea_skipping :
    (∀ (d : AXData) (cs : List AXNode), d.role = some "WebArea" →
        optStrTruthy d.name = false →
        flattenAccessibilityTree (.node d cs) = flattenForest cs) ∧
    (∀ (d : AXData) (cs : List AXNode), d.role = some "WebArea" →
        optStrTruthy d.name = true →
        flattenAccessibilityTree (.node d cs) =
          mkEntry d :: flattenForest cs) ∧
    (∀ (c : AXNode) (cs : List AXNode),
        flattenForest (c :: cs) =
          flattenAccessibilityTree c ++ flattenForest cs) ∧
    (∀ (t : AXNode), ∀ e ∈ flattenAccessibilityTree t,
        ¬(e.role = "WebArea" ∧ e.name = "")) := by
  refine ⟨?_, ?_, fun c cs => rfl, no_unnamed_webarea_in_tree⟩
  · intro d cs h1 h2
    simp [flattenAccessibilityTree, emitNode, h1, h2]
  · intro d cs h1 h2
    simp [flattenAccessibilityTree, emitNode, h1, h2]

/-- C9 witness: a concrete unnamed `WebArea` root above one named button
is skipped while the button is emitted; the same `WebArea` record with a
name is emitted. -/
theorem c9_witness :
    (({ role := some "WebArea" } : AXData).role = some "WebArea" ∧
      optStrTruthy ({ role := some "WebArea" } : AXData).name = false ∧
      flattenAccessibilityTree
          (.node { role := some "WebArea" }
            [.node { role := some "button", name := some "Go" } []]) =
        flattenForest
          [.node { role := some "button", name := some "Go" } []]) ∧
    (({ role := some "WebArea", name := some "Doc" } : AXData).role =
        some "WebArea" ∧
      optStrTruthy
          ({ role := some "WebArea", name := some "Doc" } : AXData).name =
        true ∧
      flattenAccessibilityTree
          (.node { role := some "WebArea", name := some "Doc" } []) =
        mkEntry { role := some "WebArea", name := some "Doc" } ::
          flattenForest []) :=
  ⟨⟨rfl, rfl,
    c9_webarea_skipping.1 { role := some "WebArea" }
      [.node { role := some "button", name := some "Go" } []] rfl rfl⟩,
   ⟨rfl, rfl,
    c9_webarea_skipping.2.1 { role := some "WebArea", name := some "Doc" }
      [] rfl rfl⟩⟩

/-- Association-list view of an entry: the key/value pairs of the object
literal, in insertion order. -/
def NormalizedAccessibilityEntry.pairs
    (e : NormalizedAccessibilityEntry) : List (String × AttrVal) :=
  [("role", .str e.role), ("name", .str e.name), ("value", e.value),
   ("description", .str e.description), ("disabled", .str e.disabled),
   ("focused", .str e.focused), ("selected", .str e.selected),
   ("checked", .str e.checked), ("expanded", .str e.expanded),
   ("pressed", .str e.pressed), ("readonly", .str e.readonly),
   ("required", .str e.required), ("level", e.level),
   ("valuemin", e.valuemin), ("valuemax", e.valuemax),
   ("autocomplete", .str e.autocomplete), ("haspopup", .str e.haspopup),
   ("invalid", .str e.invalid), ("modal", .str e.modal),
   ("multiline", .str e.multiline),
   ("multiselectable", .str e.multiselectable),
   ("orientation", .str e.orientation),
   ("keyshortcuts", .str e.keyshortcuts),
   ("roledescription", .str e.roledescription),
   ("valuetext", .str e.valuetext)]

/-- The fixed key set of every emitted entry, in insertion order. -/
def entryKeyNames : List String :=
  ["role", "name", "value", "description", "disabled", "focused",
   "selected", "checked", "expanded", "pressed", "readonly", "required",
   "level", "valuemin", "valuemax", "autocomplete", "haspopup", "invalid",
   "modal", "multiline", "multiselectable", "orientation", "keyshortcuts",
   "roledescription", "valuetext"]

/-- C4: every entry emitted by the flattening carries exactly the fixed
key set, and every attribute absent on the raw node is recorded as the
empty string. -/
theorem c4_uniform_schema :
    (∀ (t : AXNode), ∀ e ∈ flattenAccessibilityTree t,
      e.pairs.map Prod.fst = entryKeyNames) ∧
    (∀ d : AXData,
      (d.role = none → (mkEntry d).role = "") ∧
      (d.name = none → (mkEntry d).name = "") ∧
      (d.value = none → (mkEntry d).value = .str "") ∧
      (d.description = none → (mkEntry d).description = "") ∧
      (d.disabled = none → (mkEntry d).disabled = "") ∧
      (d.focused = none → (mkEntry d).focused = "") ∧
      (d.selected = none → (mkEntry d).selected = "") ∧
      (d.checked = none → (mkEntry d).checked = "") ∧
      (d.expanded = none → (mkEntry d).expanded = "") ∧
      (d.pressed = none → (mkEntry d).pressed = "") ∧
      (d.readonly = none → (mkEntry d).readonly = "") ∧
      (d.required = none → (mkEntry d).required = "") ∧
      (d.level = none → (mkEntry d).level = .str "") ∧
      (d.valuemin = none → (mkEntry d).valuemin = .str "") ∧
      (d.valuemax = none → (mkEntry d).valuemax = .str "") ∧
      (d.autocomplete = none → (mkEntry d).autocomplete = "") ∧
      (d.haspopup = none → (mkEntry d).haspopup = "") ∧
      (d.invalid = none → (mkEntry d).invalid = "") ∧
      (d.modal = none → (mkEntry d).modal = "") ∧
      (d.multiline = none → (mkEntry d).multiline = "") ∧
      (d.multiselectable = none → (mkEntry d).multiselectable = "") ∧
      (d.orientation = none → (mkEntry d).orientation = "") ∧
      (d.keyshortcuts = none → (mkEntry d).keyshortcuts = "") ∧
      (d.roledescription = none → (mkEntry d).roledescription = "") ∧
      (d.valuetext = none → (mkEntry d).valuetext = "")) := by
  refine ⟨fun t e _ => rfl, fun d => ?_⟩
  refine ⟨?_, ?_, ?_, ?_, ?_, ?_, ?_, ?_, ?_, ?_, ?_, ?_, ?_, ?_, ?_,
    ?_, ?_, ?_, ?_, ?_, ?_, ?_, ?_, ?_, ?_⟩ <;>
    · intro h
      simp [mkEntry, h, strOrEmpty, twoStateStr, boolTruthy, triStateStr,
        expandedStr, numOrEmpty]

/-- C4 witness: the entry of a concrete attribute-free node has the fixed
key list, and its absent role and level are recorded as empty strings. -/
theorem c4_witness :
    (mkEntry {}).pairs.map Prod.fst = entryKeyNames ∧
    (mkEntry {}).role = "" ∧
    (mkEntry {}).level = .str "" :=
  ⟨c4_uniform_schema.1 (.node {} []) (mkEntry {}) (by decide),
   (c4_uniform_schema.2 {}).1 rfl,
   (c4_uniform_schema.2 {}).2.2.2.2.2.2.2.2.2.2.2.2.1 rfl⟩

/-- A session kind other than `browser` fails the strict-equality check of
`scrollTool`. -/
theorem neBrowserBne {st : Option SessionKind}
    (h : st ≠ some .browser) : (st != some SessionKind.browser) = true := by
  cases st with
  | none => rfl
  | some k => cases k <;> simp_all

/-- C8: on a browser session the scroll is dispatched with delta
`+pixels` for direction down and `-pixels` for direction up; on any other
session kind no scroll is dispatched and the result is the descriptive
browser-only error text. -/
theorem c8_scroll_dispatch (st : Option SessionKind) (d : ScrollDir)
    (pixels : Int) (fault : Option String) :
    (st = some .browser →
      (scrollTool st d pixels fault).executed =
        some (if d = .down then pixels else -pixels)) ∧
    (st ≠ some .browser →
      (scrollTool st d pixels fault).executed = none ∧
      (scrollTool st d pixels fault).content =
        [⟨"text", "Error scrolling: Error: scroll only works in browser sessions. For mobile, use the swipe tool."⟩]) := by
  constructor
  · intro h
    subst h
    cases fault <;> cases d <;> simp [scrollTool]
  · intro h
    simp [scrollTool, neBrowserBne h]

/-- C8 witness: scrolling up by 200 on a browser session dispatches delta
-200; the same call on an Android session dispatches nothing and returns
the browser-only error. -/
theorem c8_witness :
    ((some SessionKind.browser = some SessionKind.browser) ∧
      (scrollTool (some .browser) .up 200 none).executed =
        some (if ScrollDir.up = ScrollDir.down then (200 : Int) else -200)) ∧
    ((some SessionKind.mobileAndroid ≠ some SessionKind.browser) ∧
      ((scrollTool (some .mobileAndroid) .up 200 none).executed = none ∧
        (scrollTool (some .mobileAndroid) .up 200 none).content =
          [⟨"text", "Error scrolling: Error: scroll only works in browser sessions. For mobile, use the swipe tool."⟩])) :=
  ⟨⟨rfl, (c8_scroll_dispatch (some .browser) .up 200 none).1 rfl⟩,
   ⟨by decide, (c8_scroll_dispatch (some .mobileAndroid) .up 200 none).2
      (by decide)⟩⟩

/-- C2 (amended): every induced failure of every action — missing
arguments of tap_element or drag_and_drop, a non-browser session for
scroll or get_accessibility, or a backend fault of tap, drag, scroll,
swipe, rotate_device, hide_keyboard, get_geolocation, set_geolocation,
execute_script or get_accessibility — returns a single text block whose
text begins with `Error`; backend faults carry the action's
`Error <verb>ing: ` prefix, scroll's session-kind failure carries
`Error scrolling: ` before the stringified thrown error, while the two
missing-argument failures and get_accessibility's session-kind failure
begin with `Error: ` instead. -/
theorem c2_error_envelope :
    (∀ (sel : Option String) (x y : Option Int) (fault : Option String),
      optStrTruthy sel = false → (x = none ∨ y = none) →
      tapElementTool sel x y fault =
        [⟨"text", "Error: Must provide either selector or x,y coordinates"⟩] ∧
      isSingleErrorBlock (tapElementTool sel x y fault)) ∧
    (∀ (sel : Option String) (x y : Option Int) (f : String),
      optStrTruthy sel = true ∨ (x.isSome && y.isSome) = true →
      tapElementTool sel x y (some f) =
        [⟨"text", "Error tapping: " ++ f⟩] ∧
      isSingleErrorBlock (tapElementTool sel x y (some f))) ∧
    (∀ (src : String) (tgt : Option String) (x y : Option Int)
      (dur : Option ℚ) (dragFault : Option String),
      optStrTruthy tgt = false → (x = none ∨ y = none) →
      dragAndDropTool src tgt x y dur none dragFault =
        [⟨"text", "Error: Must provide either targetSelector or x,y coordinates"⟩] ∧
      isSingleErrorBlock (dragAndDropTool src tgt x y dur none dragFault)) ∧
    (∀ (src : String) (tgt : Option String) (x y : Option Int)
      (dur : Option ℚ) (f : String) (dragFault : Option String),
      dragAndDropTool src tgt x y dur (some f) dragFault =
        [⟨"text", "Error dragging: " ++ f⟩] ∧
      isSingleErrorBlock (dragAndDropTool src tgt x y dur (some f) dragFault)) ∧
    (∀ (src : String) (tgt : Option String) (x y : Option Int)
      (dur : Option ℚ) (f : String),
      optStrTruthy tgt = true ∨ (x.isSome && y.isSome) = true →
      dragAndDropTool src tgt x y dur none (some f) =
        [⟨"text", "Error dragging: " ++ f⟩] ∧
      isSingleErrorBlock (dragAndDropTool src tgt x y dur none (some f))) ∧
    (∀ (st : Option SessionKind) (d : ScrollDir) (p : Int)
      (fault : Option String), st ≠ some .browser →
      (scrollTool st d p fault).content =
        [⟨"text", "Error scrolling: Error: scroll only works in browser sessions. For mobile, use the swipe tool."⟩] ∧
      isSingleErrorBlock (scrollTool st d p fault).content) ∧
    (∀ (d : ScrollDir) (p : Int) (f : String),
      (scrollTool (some .browser) d p (some f)).content =
        [⟨"text", "Error scrolling: " ++ f⟩] ∧
      isSingleErrorBlock (scrollTool (some .browser) d p (some f)).content) ∧
    (∀ (d : Direction) (dur pct : Option ℚ) (f : String),
      (swipeTool d dur pct (some f)).content =
        [⟨"text", "Error swiping: " ++ f⟩] ∧
      isSingleErrorBlock (swipeTool d dur pct (some f)).content) ∧
    (∀ (o : Orientation) (f : String),
      rotateDeviceTool o (some f) =
        [⟨"text", "Error rotating device: " ++ f⟩] ∧
      isSingleErrorBlock (rotateDeviceTool o (some f))) ∧
    (∀ f : String,
      hideKeyboardTool (some f) =
        [⟨"text", "Error hiding keyboard: " ++ f⟩] ∧
      isSingleErrorBlock (hideKeyboardTool (some f))) ∧
    (∀ (loc : GeoLocation) (f : String),
      getGeolocationTool loc (some f) =
        [⟨"text", "Error getting geolocation: " ++ f⟩] ∧
      isSingleErrorBlock (getGeolocationTool loc (some f))) ∧
    (∀ (lat lon : ℚ) (alt : Option ℚ) (f : String),
      setGeolocationTool lat lon alt (some f) =
        [⟨"text", "Error setting geolocation: " ++ f⟩] ∧
      isSingleErrorBlock (setGeolocationTool lat lon alt (some f))) ∧
    (∀ (script : String) (args : List JSArg)
      (oracle : String → Option Bool) (f successText : String),
      (executeScriptTool script args oracle (some f) successText).content =
        [⟨"text", "Error executing script: " ++ f⟩] ∧
      isSingleErrorBlock
        (executeScriptTool script args oracle (some f) successText).content) ∧
    (∀ (pagesEmpty : Bool) (snapshot : Option AXNode)
      (fault : Option String) (enc : AccessResult → String)
      (limit offset : Int) (roles : Option (List String)) (namedOnly : Bool),
      getAccessibilityTreeTool true pagesEmpty snapshot fault enc limit
          offset roles namedOnly =
        [⟨"text", "Error: get_accessibility is browser-only. For mobile apps, use get_visible_elements instead."⟩] ∧
      isSingleErrorBlock (getAccessibilityTreeTool true pagesEmpty snapshot
        fault enc limit offset roles namedOnly)) ∧
    (∀ (pagesEmpty : Bool) (snapshot : Option AXNode) (f : String)
      (enc : AccessResult → String) (limit offset : Int)
      (roles : Option (List String)) (namedOnly : Bool),
      getAccessibilityTreeTool false pagesEmpty snapshot (some f) enc limit
          offset roles namedOnly =
        [⟨"text", "Error getting accessibility tree: " ++ f⟩] ∧
      isSingleErrorBlock (getAccessibilityTreeTool false pagesEmpty snapshot
        (some f) enc limit offset roles namedOnly)) := by
  refine ⟨?_, ?_, ?_, ?_, ?_, ?_, ?_, ?_, ?_, ?_, ?_, ?_, ?_, ?_, ?_⟩
  · intro sel x y fault h1 h2
    have hxy : (x.isSome && y.isSome) = false := by
      rcases h2 with h | h <;> simp [h]
    have he : tapElementTool sel x y fault =
        [⟨"text", "Error: Must provide either selector or x,y coordinates"⟩] := by
      simp [tapElementTool, h1, hxy]
    refine ⟨he, ?_⟩
    rw [he]
    exact ⟨": Must provide either selector or x,y coordinates", rfl⟩
  · intro sel x y f h
    by_cases hs : optStrTruthy sel = true
    · have he : tapElementTool sel x y (some f) =
          [⟨"text", "Error tapping: " ++ f⟩] := by
        simp [tapElementTool, hs]
      refine ⟨he, ?_⟩
      rw [he]
      exact singleErrorBlockAppend "Error tapping: " " tapping: " f rfl
    · have hs' : optStrTruthy sel = false := by simpa using hs
      have hxy : (x.isSome && y.isSome) = true := by
        rcases h with h | h
        · exact absurd h hs
        · exact h
      have he : tapElementTool sel x y (some f) =
          [⟨"text", "Error tapping: " ++ f⟩] := by
        simp [tapElementTool, hs', hxy]
      refine ⟨he, ?_⟩
      rw [he]
      exact singleErrorBlockAppend "Error tapping: " " tapping: " f rfl
  · intro src tgt x y dur dragFault h1 h2
    have hxy : (x.isSome && y.isSome) = false := by
      rcases h2 with h | h <;> simp [h]
    have he : dragAndDropTool src tgt x y dur none dragFault =
        [⟨"text", "Error: Must provide either targetSelector or x,y coordinates"⟩] := by
      simp [dragAndDropTool, h1, hxy]
    refine ⟨he, ?_⟩
    rw [he]
    exact ⟨": Must provide either targetSelector or x,y coordinates", rfl⟩
  · intro src tgt x y dur f dragFault
    have he : dragAndDropTool src tgt x y dur (some f) dragFault =
        [⟨"text", "Error dragging: " ++ f⟩] := rfl
    refine ⟨he, ?_⟩
    rw [he]
    exact singleErrorBlockAppend "Error dragging: " " dragging: " f rfl
  · intro src tgt x y dur f h
    by_cases ht : optStrTruthy tgt = true
    · have he : dragAndDropTool src tgt x y dur none (some f) =
          [⟨"text", "Error dragging: " ++ f⟩] := by
        simp [dragAndDropTool, ht]
      refine ⟨he, ?_⟩
      rw [he]
      exact singleErrorBlockAppend "Error dragging: " " dragging: " f rfl
    · have ht' : optStrTruthy tgt = false := by simpa using ht
      have hxy : (x.isSome && y.isSome) = true := by
        rcases h with h | h
        · exact absurd h ht
        · exact h
      have he : dragAndDropTool src tgt x y dur none (some f) =
          [⟨"text", "Error dragging: " ++ f⟩] := by
        simp [dragAndDropTool, ht', hxy]
      refine ⟨he, ?_⟩
      rw [he]
      exact singleErrorBlockAppend "Error dragging: " " dragging: " f rfl
  · intro st d p fault h
    have he : (scrollTool st d p fault).content =
        [⟨"text", "Error scrolling: Error: scroll only works in browser sessions. For mobile, use the swipe tool."⟩] := by
      simp [scrollTool, neBrowserBne h]
    refine ⟨he, ?_⟩
    rw [he]
    exact ⟨" scrolling: Error: scroll only works in browser sessions. For mobile, use the swipe tool.", rfl⟩
  · intro d p f
    have he : (scrollTool (some .browser) d p (some f)).content =
        [⟨"text", "Error scrolling: " ++ f⟩] := rfl
    refine ⟨he, ?_⟩
    rw [he]
    exact singleErrorBlockAppend "Error scrolling: " " scrolling: " f rfl
  · intro d dur pct f
    have he : (swipeTool d dur pct (some f)).content =
        [⟨"text", "Error swiping: " ++ f⟩] := rfl
    refine ⟨he, ?_⟩
    rw [he]
    exact singleErrorBlockAppend "Error swiping: " " swiping: " f rfl
  · intro o f
    have he : rotateDeviceTool o (some f) =
        [⟨"text", "Error rotating device: " ++ f⟩] := rfl
    refine ⟨he, ?_⟩
    rw [he]
    exact singleErrorBlockAppend "Error rotating device: " " rotating device: " f rfl
  · intro f
    have he : hideKeyboardTool (some f) =
        [⟨"text", "Error hiding keyboard: " ++ f⟩] := rfl
    refine ⟨he, ?_⟩
    rw [he]
    exact singleErrorBlockAppend "Error hiding keyboard: " " hiding keyboard: " f rfl
  · intro loc f
    have he : getGeolocationTool loc (some f) =
        [⟨"text", "Error getting geolocation: " ++ f⟩] := rfl
    refine ⟨he, ?_⟩
    rw [he]
    exact singleErrorBlockAppend "Error getting geolocation: " " getting geolocation: " f rfl
  · intro lat lon alt f
    have he : setGeolocationTool lat lon alt (some f) =
        [⟨"text", "Error setting geolocation: " ++ f⟩] := rfl
    refine ⟨he, ?_⟩
    rw [he]
    exact singleErrorBlockAppend "Error setting geolocation: " " setting geolocation: " f rfl
  · intro script args oracle f successText
    have he : (executeScriptTool script args oracle (some f) successText).content =
        [⟨"text", "Error executing script: " ++ f⟩] := rfl
    refine ⟨he, ?_⟩
    rw [he]
    exact singleErrorBlockAppend "Error executing script: " " executing script: " f rfl
  · intro pagesEmpty snapshot fault enc limit offset roles namedOnly
    have he : getAccessibilityTreeTool true pagesEmpty snapshot fault enc
        limit offset roles namedOnly =
        [⟨"text", "Error: get_accessibility is browser-only. For mobile apps, use get_visible_elements instead."⟩] := rfl
    refine ⟨he, ?_⟩
    rw [he]
    exact ⟨": get_accessibility is browser-only. For mobile apps, use get_visible_elements instead.", rfl⟩
  · intro pagesEmpty snapshot f enc limit offset roles namedOnly
    have he : getAccessibilityTreeTool false pagesEmpty snapshot (some f)
        enc limit offset roles namedOnly =
        [⟨"text", "Error getting accessibility tree: " ++ f⟩] := rfl
    refine ⟨he, ?_⟩
    rw [he]
    exact singleErrorBlockAppend "Error getting accessibility tree: " " getting accessibility tree: " f rfl

/-- C2 witness: a tap with neither selector nor coordinates returns the
exact missing-argument error block, and a drag whose source lookup faults
returns the exact `Error dragging: ` block. -/
theorem c2_witness :
    (optStrTruthy none = false ∧
      ((none : Option Int) = none ∨ (none : Option Int) = none) ∧
      (tapElementTool none none none none =
        [⟨"text", "Error: Must provide either selector or x,y coordinates"⟩] ∧
      isSingleErrorBlock (tapElementTool none none none none))) ∧
    (dragAndDropTool "#src" none none none none (some "boom") none =
        [⟨"text", "Error dragging: " ++ "boom"⟩] ∧
      isSingleErrorBlock
        (dragAndDropTool "#src" none none none none (some "boom") none)) :=
  ⟨⟨rfl, Or.inl rfl,
    c2_error_envelope.1 none none none none rfl (Or.inl rfl)⟩,
   c2_error_envelope.2.2.2.1 "#src" none none none none "boom" none⟩

/-- C2 counterexample: the missing-argument failure of `tap_element`
returns the text `Error: Must provide either selector or x,y coordinates`,
which does not begin with `Error tapping: `. -/
theorem c2_counterexample :
    tapElementTool none none none none =
      [⟨"text", "Error: Must provide either selector or x,y coordinates"⟩] ∧
    ∀ rest : String,
      "Error: Must provide either selector or x,y coordinates" ≠
        "Error tapping: " ++ rest := by
  refine ⟨rfl, fun rest h => ?_⟩
  have hd := congrArg String.data h
  simp [String.data_append] at hd

/-- C3: for nonnegative limit and offset, `total` counts the filtered
entries before pagination, the returned page consists of the filtered
entries from position `offset` on (cut to `limit` entries when
`limit > 0`), `showing` is `min (total - offset) limit` (everything after
the offset when `limit = 0`), and
`hasMore` decides `offset + showing < total`. -/
theorem c3_pagination_correctness (snap : AXNode) (limit offset : Int)
    (roles : Option (List String)) (namedOnly : Bool)
    (hL : 0 ≤ limit) (hO : 0 ≤ offset) :
    (getAccessibilityCore snap limit offset roles namedOnly).total =
      (filteredNodes snap roles namedOnly).length ∧
    (getAccessibilityCore snap limit offset roles namedOnly).nodes =
      (if limit = 0 then
        (filteredNodes snap roles namedOnly).drop offset.toNat
      else
        ((filteredNodes snap roles namedOnly).drop offset.toNat).take
          limit.toNat) ∧
    (getAccessibilityCore snap limit offset roles namedOnly).showing =
      (if limit = 0 then
        (filteredNodes snap roles namedOnly).length - offset.toNat
      else
        min ((filteredNodes snap roles namedOnly).length - offset.toNat)
          limit.toNat) ∧
    (getAccessibilityCore snap limit offset roles namedOnly).hasMore =
      decide (offset.toNat +
          (getAccessibilityCore snap limit offset roles namedOnly).showing <
        (getAccessibilityCore snap limit offset roles namedOnly).total) := by
  have hdrop :
      (if offset > 0 then
        (filteredNodes snap roles namedOnly).drop offset.toNat
      else filteredNodes snap roles namedOnly) =
      (filteredNodes snap roles namedOnly).drop offset.toNat := by
    rcases lt_or_eq_of_le hO with h | h
    · simp [h]
    · simp [← h]
  have hnodes :
      (getAccessibilityCore snap limit offset roles namedOnly).nodes =
      (if limit = 0 then
        (filteredNodes snap roles namedOnly).drop offset.toNat
      else
        ((filteredNodes snap roles namedOnly).drop offset.toNat).take
          limit.toNat) := by
    rcases lt_or_eq_of_le hL with h | h
    · have h0 : limit ≠ 0 := by omega
      simp [getAccessibilityCore, hdrop, h, h0]
    · simp [getAccessibilityCore, hdrop, ← h]
  have hshowing :
      (getAccessibilityCore snap limit offset roles namedOnly).showing =
      (if limit = 0 then
        (filteredNodes snap roles namedOnly).length - offset.toNat
      else
        min ((filteredNodes snap roles namedOnly).length - offset.toNat)
          limit.toNat) := by
    have : (getAccessibilityCore snap limit offset roles namedOnly).showing =
        (getAccessibilityCore snap limit offset roles namedOnly).nodes.length :=
      rfl
    rw [this, hnodes]
    rcases eq_or_ne limit 0 with h | h
    · simp [h]
    · simp [h, Nat.min_comm]
  refine ⟨rfl, hnodes, hshowing, ?_⟩
  have hh : (getAccessibilityCore snap limit offset roles namedOnly).hasMore =
      decide ((offset +
          (getAccessibilityCore snap limit offset roles namedOnly).nodes.length :
            Int) <
        ((getAccessibilityCore snap limit offset roles namedOnly).total :
          Int)) := rfl
  have hs : (getAccessibilityCore snap limit offset roles namedOnly).showing =
      (getAccessibilityCore snap limit offset roles namedOnly).nodes.length :=
    rfl
  rw [hh, hs, decide_eq_decide]
  omega

/-- The concrete tree used by the pagination witnesses: an unnamed
`WebArea` root above five named nodes. -/
def sampleTree : AXNode :=
  .node { role := some "WebArea" }
    [.node { role := some "button", name := some "One" } [],
     .node { role := some "button", name := some "Two" } [],
     .node { role := some "link", name := some "Three" } [],
     .node { role := some "button", name := some "Four" } [],
     .node { role := some "link", name := some "Five" } []]

/-- C3 witness: limit 2 and offset 1 on the five-entry sample tree. -/
theorem c3_witness :
    (0 : Int) ≤ 2 ∧ (0 : Int) ≤ 1 ∧
    ((getAccessibilityCore sampleTree 2 1 none true).total =
      (filteredNodes sampleTree none true).length ∧
    (getAccessibilityCore sampleTree 2 1 none true).nodes =
      (if (2 : Int) = 0 then
        (filteredNodes sampleTree none true).drop (1 : Int).toNat
      else
        ((filteredNodes sampleTree none true).drop (1 : Int).toNat).take
          (2 : Int).toNat) ∧
    (getAccessibilityCore sampleTree 2 1 none true).showing =
      (if (2 : Int) = 0 then
        (filteredNodes sampleTree none true).length - (1 : Int).toNat
      else
        min ((filteredNodes sampleTree none true).length - (1 : Int).toNat)
          (2 : Int).toNat) ∧
    (getAccessibilityCore sampleTree 2 1 none true).hasMore =
      decide ((1 : Int).toNat +
          (getAccessibilityCore sampleTree 2 1 none true).showing <
        (getAccessibilityCore sampleTree 2 1 none true).total)) :=
  ⟨by decide, by decide,
   c3_pagination_correctness sampleTree 2 1 none true (by decide) (by decide)⟩

/-- C10: a negative limit is treated exactly like limit 0 (unlimited),
because the limit cut is applied only when the limit is strictly
positive. -/
theorem c10_negative_limit (snap : AXNode) (limit offset : Int)
    (roles : Option (List String)) (namedOnly : Bool) (h : limit < 0) :
    getAccessibilityCore snap limit offset roles namedOnly =
      getAccessibilityCore snap 0 offset roles namedOnly := by
  have h1 : ¬(limit > 0) := by omega
  simp [getAccessibilityCore, h1]

/-- C10 witness: limit -5 and limit 0 agree on the sample tree. -/
theorem c10_witness :
    (-5 : Int) < 0 ∧
    getAccessibilityCore sampleTree (-5) 2 none true =
      getAccessibilityCore sampleTree 0 2 none true :=
  ⟨by decide, c10_negative_limit sampleTree (-5) 2 none true (by decide)⟩

end Webdriverio
